import Mathlib

/-!
Verification development for the time-seer-forecast-kit repository.

The repository is a thin analysis layer around external statistical
libraries.  The definitions below are a shallow embedding of the code in
`src/python_scripts/main.py` (the `ARIMATimeSeriesAnalyzer` class and the
batch API mode), `src/api_server.py` (the REST `/api/forecast` handler) and
`src/python_scripts/streamlit_app.py` (the dashboard variant).

Conventions of the embedding:
* Python floats are modelled as exact rationals; numeric literals such as
  `0.05`, `0.8` and `0.85` become the rationals `1/20`, `4/5`, `17/20`.
* A pandas cell that may be missing (NaN) is an `Option ℚ`; a pandas
  Series is a `List (Option ℚ)`; `dropna` is `List.filterMap id`.
* The external fitted models (statsmodels `ARIMAResults`, pmdarima
  `ARIMA`) are abstracted as a function `ℕ → ℚ` giving the forecast at
  each horizon; `forecast(steps)`/`predict(steps)` returns exactly
  `steps` values, which is the documented contract of both libraries.
* Fallible Python code (raising exceptions) is modelled with
  `Except String`; the string is the message of the raised exception.
* Where the code takes square roots (`np.sqrt` for RMSE) the embedding
  keeps the radicand (the mean squared error): the square root is applied
  identically by every code path considered, so two RMSE values produced
  by the code are equal exactly when the embedded `mse` values are equal.
-/

namespace TSF

/-- Mean of a list of rationals (`.mean()` in numpy/pandas); division by
zero for the empty list yields `0` in `ℚ`. -/
def listMean (xs : List ℚ) : ℚ := xs.sum / xs.length

/-- Pointwise squared errors between a test window and a forecast,
`(test - forecast)**2`. -/
def sqErr (t f : List ℚ) : List ℚ := List.zipWith (fun a b => (a - b) ^ 2) t f

/-- Pointwise absolute errors between a test window and a forecast,
`np.abs(test - forecast)`. -/
def absErr (t f : List ℚ) : List ℚ := List.zipWith (fun a b => |a - b|) t f

/-- sklearn `mean_squared_error`: mean of the squared errors. -/
def mean_squared_error (t f : List ℚ) : ℚ := listMean (sqErr t f)

/-- sklearn `mean_absolute_error`: mean of the absolute errors. -/
def mean_absolute_error (t f : List ℚ) : ℚ := listMean (absErr t f)

/-- Residual sum of squares `((test - forecast)**2).sum()`. -/
def ssRes (t f : List ℚ) : ℚ := (sqErr t f).sum

/-- Total sum of squares `((test - test.mean())**2).sum()`. -/
def ssTot (t : List ℚ) : ℚ := (t.map (fun a => (a - listMean t) ^ 2)).sum

/-- sklearn `r2_score` on the generic branch: `1 - ss_res / ss_tot`. -/
def r2_score (t f : List ℚ) : ℚ := 1 - ssRes t f / ssTot t

/-- Metrics computed by the dashboard metric block
(`evaluate_models` in `main.py` lines 418-446 and the identical block in
`streamlit_app.py`): sklearn mean squared error (whose square root the
code reports as RMSE), MAE and R².  No accuracy value is computed there. -/
structure EvalMetrics where
  mse : ℚ
  mae : ℚ
  r2 : ℚ
deriving DecidableEq

/-- The dashboard metric block of `evaluate_models`: for a fitted model it
computes sklearn RMSE (here the radicand `mse`), MAE and R² of the test
window against the forecast. -/
def evaluate_models_metrics (t f : List ℚ) : EvalMetrics :=
  { mse := mean_squared_error t f
    mae := mean_absolute_error t f
    r2 := r2_score t f }

/-- Metrics object produced by the API paths: rmse (kept as its radicand
`mse`), mae, r2 and accuracy. -/
structure ApiMetrics where
  mse : ℚ
  mae : ℚ
  r2 : ℚ
  accuracy : ℚ
deriving DecidableEq

/-- Metric block of `run_api_analysis` (`main.py` lines 497-510): sklearn
rmse/mae/r2 on the full test window, and the accuracy estimate
`0.85 + r2 * 0.1`. -/
def cliMetricsBlock (t f : List ℚ) : ApiMetrics :=
  { mse := mean_squared_error t f
    mae := mean_absolute_error t f
    r2 := r2_score t f
    accuracy := 17 / 20 + r2_score t f * (1 / 10) }

/-- Clamp to the unit interval, `max(0, min(x, 1))` as in `api_server.py`. -/
def clamp01 (x : ℚ) : ℚ := max 0 (min x 1)

/-- Largest element of a list (`.max()` on a nonempty pandas Series);
`0` for the empty list, which the call sites guard against. -/
def listMax : List ℚ → ℚ
  | [] => 0
  | x :: xs => xs.foldl max x

/-- Smallest element of a list (`.min()` on a nonempty pandas Series). -/
def listMin : List ℚ → ℚ
  | [] => 0
  | x :: xs => xs.foldl min x

/-- The raw REST R² before clamping: `1 - ss_residual/ss_total` when
`ss_total != 0`, else `0` (`api_server.py` line 109). -/
def restRawR2 (tv fv : List ℚ) : ℚ :=
  if ssTot tv ≠ 0 then 1 - ssRes tv fv / ssTot tv else 0

/-- The raw REST accuracy before clamping: `1 - mae/range` when the test
range is positive, else `0` (`api_server.py` line 116). -/
def restRawAccuracy (tv fv : List ℚ) : ℚ :=
  if 0 < listMax tv - listMin tv
  then 1 - mean_absolute_error tv fv / (listMax tv - listMin tv)
  else 0

/-- The REST overlap length, `min(len(ts_test), len(forecast_values))`. -/
def overlapLen (t f : List ℚ) : ℕ := min t.length f.length

/-- The REST test values, `analyzer.ts_test.iloc[:overlap_steps]`. -/
def overlapTest (t f : List ℚ) : List ℚ := t.take (overlapLen t f)

/-- The REST forecast overlap, `forecast_values[:overlap_steps]`. -/
def overlapForecast (t f : List ℚ) : List ℚ := f.take (overlapLen t f)

/-- Inline metric block of the REST `/api/forecast` handler
(`api_server.py` lines 96-126): metrics are computed on the overlap of the
test window and the forecast; rmse (radicand kept) and mae are means over
the overlap, r2 and accuracy are clamped into the unit interval. -/
def restOverlapMetrics (t f : List ℚ) : ApiMetrics :=
  { mse := mean_squared_error (overlapTest t f) (overlapForecast t f)
    mae := mean_absolute_error (overlapTest t f) (overlapForecast t f)
    r2 := clamp01 (restRawR2 (overlapTest t f) (overlapForecast t f))
    accuracy := clamp01 (restRawAccuracy (overlapTest t f) (overlapForecast t f)) }

/-- The `order` sub-dictionary of a model configuration; each component is
optional and the code defaults each missing component to `1`. -/
structure OrderCfg where
  p : Option ℕ := none
  d : Option ℕ := none
  q : Option ℕ := none
deriving DecidableEq

/-- A model configuration dictionary as read by `run_api_analysis`
(camelCase JSON keys) and the REST handler (snake_case JSON keys); both
carry the same optional fields with the same defaults. -/
structure ModelConfig where
  modelType : Option String := none
  trainSize : Option ℚ := none
  order : Option OrderCfg := none
  seasonal : Option Bool := none
  seasonalPeriod : Option ℕ := none
deriving DecidableEq

/-- The p component of the configured order with default 1, as read by
`config.get` chains in both front ends. -/
def orderP (c : ModelConfig) : ℕ := ((c.order.getD {}).p).getD 1

/-- The d component of the configured order with default 1. -/
def orderD (c : ModelConfig) : ℕ := ((c.order.getD {}).d).getD 1

/-- The q component of the configured order with default 1. -/
def orderQ (c : ModelConfig) : ℕ := ((c.order.getD {}).q).getD 1

/-- Which model-fitting path a front end takes: the automatic stepwise
search (`fit_auto_arima`) or a manual ARIMA fit with an explicit order. -/
inductive FitPath
  | auto (seasonal : Bool) (m : ℕ)
  | manual (p d q : ℕ)
deriving DecidableEq

/-- Whether a fitting path is the automatic stepwise search. -/
def FitPath.isAuto : FitPath → Bool
  | .auto _ _ => true
  | .manual _ _ _ => false

/-- Branch taken by the batch CLI (`run_api_analysis`, `main.py` lines
478-494): when the model type equals `auto` take the automatic path, otherwise fit
a manual ARIMA with order components defaulting to 1.  The model type
itself defaults to `auto`. -/
def cliFitPath (c : ModelConfig) : FitPath :=
  if c.modelType.getD "auto" = "auto" then
    FitPath.auto (c.seasonal.getD false) (c.seasonalPeriod.getD 12)
  else
    FitPath.manual (orderP c) (orderD c) (orderQ c)

/-- Branch taken by the REST handler (`api_server.py` lines 73-90):
when the model type equals `manual` fit a manual ARIMA with order components
defaulting to 1, otherwise take the automatic path.  The model type
itself defaults to `auto`. -/
def restFitPath (c : ModelConfig) : FitPath :=
  if c.modelType.getD "auto" = "manual" then
    FitPath.manual (orderP c) (orderD c) (orderQ c)
  else
    FitPath.auto (c.seasonal.getD false) (c.seasonalPeriod.getD 12)

/-- A pandas Series of possibly missing numeric cells. -/
abbrev Series := List (Option ℚ)

/-- Pandas `dropna` on a Series keeps exactly the present numeric values. -/
def dropna (s : Series) : List ℚ := s.filterMap id

/-- An external fitted model abstracted as its forecast function: the
value predicted at each horizon.  Both statsmodels `forecast(steps)` and
pmdarima `predict(steps)` return one value per horizon `0..steps-1`. -/
abbrev Model := ℕ → ℚ

/-- The list of `steps` forecast values produced by a fitted model. -/
def modelForecast (m : Model) (steps : ℕ) : List ℚ :=
  (List.range steps).map m

/-- Python `int()` applied to a rational: truncation toward zero. -/
def pyInt (x : ℚ) : ℤ := if 0 ≤ x then ⌊x⌋ else ⌈x⌉

/-- The slice index `int(len(ts) * train_size)` of `split_data`.  For the
nonnegative products arising from `0 < train_size` this is the floor; a
negative `train_size` would make Python slice from the end of the list,
which the claims never exercise. -/
def splitIdx (n : ℕ) (trainSize : ℚ) : ℕ := (pyInt ((n : ℚ) * trainSize)).toNat

/-- Python slicing `ts[:split_idx], ts[split_idx:]`: the train/test split. -/
def splitList {α : Type} (xs : List α) (trainSize : ℚ) : List α × List α :=
  (xs.take (splitIdx xs.length trainSize), xs.drop (splitIdx xs.length trainSize))

/-- The per-instance state of an `ARIMATimeSeriesAnalyzer`: constructor
fields `ts`, `ts_train`, `ts_test`, `model_fit`, `auto_model`.  The
class-level `_df` is deliberately not here; it lives in `Session`. -/
structure Analyzer where
  ts : Option Series := none
  ts_train : Option Series := none
  ts_test : Option Series := none
  model_fit : Option Model := none
  auto_model : Option Model := none

/-- Method `split_data` (`main.py` lines 140-170): raises when no series is
selected, otherwise stores the two halves of the slice split.  The `plot`
parameter only drives matplotlib output and is omitted. -/
def Analyzer.split_data (a : Analyzer) (train_size : ℚ) : Except String Analyzer :=
  match a.ts with
  | none => .error "No time series data selected. Call select_column() first."
  | some ts =>
    let p := splitList ts train_size
    .ok { a with ts_train := some p.1, ts_test := some p.2 }

/-- Method `forecast` (`main.py` lines 292-329): raises when no manual model is
fitted, then raises when no test window exists, then forecasts
`steps` values, defaulting `steps` to the length of the test window. -/
def Analyzer.forecast (a : Analyzer) (steps : Option ℕ) : Except String (List ℚ) :=
  match a.model_fit with
  | none => .error "No model fitted. Call fit_arima() first."
  | some m =>
    match a.ts_test with
    | none => .error "No testing data available. Call split_data() first."
    | some tst => .ok (modelForecast m (steps.getD tst.length))

/-- Method `auto_forecast` (`main.py` lines 365-402): same bookkeeping as
`forecast` but for the automatically fitted model. -/
def Analyzer.auto_forecast (a : Analyzer) (steps : Option ℕ) : Except String (List ℚ) :=
  match a.auto_model with
  | none => .error "No auto ARIMA model fitted. Call fit_auto_arima() first."
  | some m =>
    match a.ts_test with
    | none => .error "No testing data available. Call split_data() first."
    | some tst => .ok (modelForecast m (steps.getD tst.length))

/-- Method `check_stationarity` (`main.py` lines 172-206).  The external
Augmented Dickey-Fuller test is abstracted as the function `adfPValue`
giving the p-value `result[1]` of the test on a series with missing
values dropped; the method returns whether that p-value is at most
`0.05`.  Called without a series it falls back to the training data and
raises when none exists. -/
def Analyzer.check_stationarity (adfPValue : List ℚ → ℚ) (a : Analyzer)
    (series : Option Series) : Except String Bool :=
  match series with
  | some s => .ok (decide (adfPValue (dropna s) ≤ 1 / 20))
  | none =>
    match a.ts_train with
    | none => .error "No training data available. Call split_data() first."
    | some s => .ok (decide (adfPValue (dropna s) ≤ 1 / 20))

/-- A loaded dataset: named columns of series, as held by the class-level
variable `ARIMATimeSeriesAnalyzer._df`. -/
abbrev DataFrame := List (String × Series)

/-- The state shared by every analyzer instance: the single class-level
variable `_df` (`main.py` line 29). -/
structure Session where
  shared : Option DataFrame := none

/-- The class method `load_data` as it acts on the shared state: whatever
the data source, it overwrites the one class-level `_df` (`main.py`
lines 56-95; the reshaping of CSV sources is modelled separately by
`load_data_csv`). -/
def Session.load_data (s : Session) (d : DataFrame) : Session :=
  { s with shared := some d }

/-- Method `select_column` (`main.py` lines 97-115): raises when the class-level
`_df` is unset, raises when the column is absent, and otherwise stores
the looked-up column in the instance field `ts`. -/
def select_column (s : Session) (a : Analyzer) (col : String) : Except String Analyzer :=
  match s.shared with
  | none => .error "No data loaded. Call load_data() first."
  | some df =>
    match df.lookup col with
    | none => .error "Column not found in the data."
    | some ser => .ok { a with ts := some ser }

/-- The constructor (`main.py` lines 31-54): a fresh instance with a
`load_data` call when a data source is supplied, and a `select_column`
call when a column is supplied and data is available. -/
def newAnalyzer (s : Session) (column : Option String) (dataSource : Option DataFrame) :
    Session × Except String Analyzer :=
  let s1 := match dataSource with
    | some d => s.load_data d
    | none => s
  match column with
  | none => (s1, .ok {})
  | some col =>
    match s1.shared with
    | none => (s1, .ok {})
    | some _ => (s1, select_column s1 {} col)

/-- A raw CSV cell as read by `pd.read_csv`: a string, a number, or an
empty (missing) cell. -/
inductive CsvCell
  | str (s : String)
  | num (q : ℚ)
  | blank
deriving DecidableEq

/-- The string content of a cell (region names are strings). -/
def csvCellStr : CsvCell → String
  | .str s => s
  | .num q => toString q
  | .blank => ""

/-- The numeric content of a cell; a string or blank cell in a value
column is a missing value. -/
def csvCellNum : CsvCell → Option ℚ
  | .num q => some q
  | _ => none

/-- A parsed CSV file: header and rows, as produced by `pd.read_csv`. -/
structure RawTable where
  header : List String
  rows : List (List CsvCell)
deriving DecidableEq

/-- The region-name column of the table, one entry per row. -/
def tableRegions (t : RawTable) (j : ℕ) : List String :=
  t.rows.map (fun r => csvCellStr (r.getD j CsvCell.blank))

/-- A cleaned dataset: a date index and one series per retained region. -/
structure Frame where
  index : List String
  columns : DataFrame
deriving DecidableEq

/-- The wide-to-long-to-wide reshape of the CSV branch of `load_data`
(`main.py` lines 67-75).  `columns.get_loc("2015-01-31")` raises a
`KeyError` unless a column is literally named `2015-01-31`; selecting
`df[["RegionName"] + date_cols]` raises unless a `RegionName` column
exists; the melt/pivot turns each row into a region column indexed by the
date column names (dates are kept in their string form, their parsing
being delegated to `pd.to_datetime`); `pivot` raises when the melted
(date, region) pairs contain duplicates; finally `dropna(axis=1)` drops
every region column with a missing value. -/
def load_data_csv (t : RawTable) : Except String Frame :=
  match t.header.indexOf? "2015-01-31" with
  | none => .error "KeyError: 2015-01-31"
  | some i =>
    match t.header.indexOf? "RegionName" with
    | none => .error "KeyError: RegionName"
    | some j =>
      let dateCols := t.header.drop i
      if (tableRegions t j).Nodup ∧ dateCols.Nodup then
        let cols := t.rows.map (fun r =>
          (csvCellStr (r.getD j CsvCell.blank),
           (List.range dateCols.length).map
             (fun c => csvCellNum (r.getD (i + c) CsvCell.blank))))
        .ok { index := dateCols
              columns := cols.filter (fun col => col.2.all Option.isSome) }
      else .error "ValueError: Index contains duplicate entries, cannot reshape"

/-- A record of the JSON `data` list handed to the batch CLI: an
association list from keys to numeric-or-null values. -/
abbrev JsonRow := List (String × Option ℚ)

/-- Whether `pd.DataFrame(rows)` has the given column: some record
carries the key. -/
def hasColumn (rows : List JsonRow) (col : String) : Bool :=
  rows.any (fun r => (r.lookup col).isSome)

/-- The Series `df[col]` of `pd.DataFrame(rows)`: per record, the value
under the key, missing (NaN) when the key is absent or null. -/
def extractColumn (rows : List JsonRow) (col : String) : Series :=
  rows.map (fun r => (r.lookup col).join)

/-- sklearn refuses series containing NaN and empty series; a Series must
be fully present to enter the metric functions. -/
def seriesToQ (s : Series) : Except String (List ℚ) :=
  if s.all Option.isSome then .ok (dropna s) else .error "Input contains NaN"

/-- The external automatic stepwise search (`pmdarima.auto_arima`) as an
oracle: training data, seasonal flag and period in, a fitted model or an
exception out. -/
abbrev AutoFitter := Series → Bool → ℕ → Except String Model

/-- The external manual fit (`statsmodels ARIMA(...).fit()`) as an
oracle: training data and order in, a fitted model or an exception out. -/
abbrev ManualFitter := Series → ℕ → ℕ → ℕ → Except String Model

/-- The `config` dictionary echoed in a successful `run_api_analysis`
result (`main.py` lines 514-520); note the echoed `order` is present
exactly when the model type is literally `manual`. -/
structure EchoConfig where
  modelType : String
  trainSize : ℚ
  order : Option OrderCfg
  seasonal : Bool
  seasonalPeriod : ℕ
deriving DecidableEq

/-- The echoed configuration built by `run_api_analysis`. -/
def echoConfig (c : ModelConfig) : EchoConfig :=
  { modelType := c.modelType.getD "auto"
    trainSize := c.trainSize.getD (4 / 5)
    order := if c.modelType.getD "auto" = "manual"
             then some (c.order.getD { p := some 1, d := some 1, q := some 1 })
             else none
    seasonal := c.seasonal.getD false
    seasonalPeriod := c.seasonalPeriod.getD 12 }

/-- The payload of a successful `run_api_analysis` result: keys
`metrics`, `forecast`, `dates`, `config`. -/
structure ApiSuccess where
  metrics : ApiMetrics
  forecastVals : List ℚ
  dates : List String
  cfg : EchoConfig
deriving DecidableEq

/-- The single JSON object written by the batch CLI: either the success
payload or the error payload with an error string, all-zero metrics and
empty forecast and date lists. -/
inductive ApiResult
  | ok (res : ApiSuccess)
  | err (msg : String) (metrics : ApiMetrics) (forecastVals : List ℚ) (dates : List String)
deriving DecidableEq

/-- The catch-all wrapper of `run_api_analysis`: a success passes
through, any raised exception becomes the fixed error payload
(`main.py` lines 523-534). -/
def apiFinalize : Except String ApiSuccess → ApiResult
  | .ok r => .ok r
  | .error e => .err e ⟨0, 0, 0, 0⟩ [] []

/-- The date formatting `self.ts_test.index.strftime(...)` (`main.py` line
502): data loaded
from a JSON list gets a pandas RangeIndex, and only datetime-like indexes
define `strftime`, so this attribute access raises. -/
def rangeIndexStrftime : Except String (List String) :=
  .error "AttributeError: RangeIndex object has no attribute strftime"

/-- Method `run_api_analysis` (`main.py` lines 448-534): load the JSON rows,
select the column, split, fit along the configured path, forecast over
the test window, compute the CLI metric block, format the test dates, and
wrap everything in the catch-all.  `load_data` also overwrites the shared
class state, modelled by `Session.load_data`; that effect is invisible to
the returned result and elided here. -/
def run_api_analysis (autoFit : AutoFitter) (manFit : ManualFitter)
    (data : List JsonRow) (column : String) (config : ModelConfig) : ApiResult :=
  apiFinalize (do
    if hasColumn data column then
      let ts : Series := extractColumn data column
      let p := splitList ts (config.trainSize.getD (4 / 5))
      let mdl : Model ←
        match cliFitPath config with
        | .auto s m => autoFit p.1 s m
        | .manual pp d q => manFit p.1 pp d q
      let fc := modelForecast mdl p.2.length
      let testQ ← seriesToQ p.2
      if testQ.length = 0 then
        .error "Found array with 0 samples"
      else
        let dates ← rangeIndexStrftime
        .ok { metrics := cliMetricsBlock testQ fc
              forecastVals := fc
              dates := dates
              cfg := echoConfig config }
    else .error "Column not found in the data.")

/-- The parsed input JSON of the batch CLI (`main.py` lines 561-563):
optional `data`, `column` and `config` fields with defaults. -/
structure CliInput where
  data : Option (List JsonRow) := none
  column : Option String := none
  config : Option ModelConfig := none

/-- The `__main__` API mode (`main.py` lines 550-590): a failed input
parse is caught by the outer handler and written as the fixed error
payload; a parsed input is analyzed and the result written.  In both
cases exactly one JSON object is written to the output file, the value
returned here. -/
def main_api_mode (autoFit : AutoFitter) (manFit : ManualFitter)
    (parsed : Except String CliInput) : ApiResult :=
  match parsed with
  | .error e => .err e ⟨0, 0, 0, 0⟩ [] []
  | .ok inp =>
    run_api_analysis autoFit manFit (inp.data.getD []) (inp.column.getD "") (inp.config.getD {})

/-- One record of the REST `data` list; pandas sees a `date` column
exactly when some record carries a date, likewise for `value`.  A
missing value entry becomes NaN in pandas; its numeric stand-in here is
irrelevant to every property stated below. -/
structure DataPoint where
  date : Option String := none
  value : Option ℚ := none
deriving DecidableEq

/-- Whether the tabulated data has a `date` column. -/
def hasDateColumn (pts : List DataPoint) : Bool :=
  pts.any (fun p => p.date.isSome)

/-- Whether the tabulated data has a `value` column. -/
def hasValueColumn (pts : List DataPoint) : Bool :=
  pts.any (fun p => p.value.isSome)

/-- The value series the REST handler analyzes. -/
def restTs (pts : List DataPoint) : List ℚ :=
  pts.map (fun p => p.value.getD 0)

/-- The body of a parsed REST request (`request.get_json()` result):
optional fields with the defaults of `api_server.py` lines 43-46. -/
structure RestRequest where
  data : Option (List DataPoint) := none
  column_name : Option String := none
  forecast_steps : Option ℕ := none
  config : Option ModelConfig := none

/-- A REST response body: an error object or a forecast object whose
metrics dictionary may be empty. -/
inductive RestBody
  | fail (msg : String)
  | ok (metrics : Option ApiMetrics) (forecastVals : List ℚ) (dates : List String)
deriving DecidableEq

/-- External fitters over the fully numeric REST series. -/
abbrev RAutoFitter := List ℚ → Bool → ℕ → Except String Model

/-- External manual fitter over the fully numeric REST series. -/
abbrev RManualFitter := List ℚ → ℕ → ℕ → ℕ → Except String Model

/-- The fit step of the REST handler: the oracle chosen by the
configured path. -/
def restFitResult (autoFit : RAutoFitter) (manFit : RManualFitter)
    (cfg : ModelConfig) (train : List ℚ) : Except String Model :=
  match restFitPath cfg with
  | .auto s m => autoFit train s m
  | .manual p d q => manFit train p d q

/-- The forecast date labels (`api_server.py` lines 129-131): month
starts following the last input date, formatted by pandas; the formatted
strings are opaque here. -/
def restForecastDates (steps : ℕ) : List String :=
  (List.range steps).map (fun i => "forecast-month " ++ toString (i + 1))

/-- The REST `/api/forecast` handler (`api_server.py` lines 35-166).  A
null body or a body without `data` is rejected with 400; an empty or
short data list is rejected with 400; data without `date` or `value`
columns is rejected with 400.  Then the series is split, the configured
path is fitted — an exception there is turned into a 500 by the
enclosing handler — `forecast_steps` values (default 12) are forecast,
and the metric block runs on the overlap with the test window, yielding
an empty metrics dictionary when the test window or the overlap is
empty.  Every surviving request returns 200. -/
def restForecastHandler (autoFit : RAutoFitter) (manFit : RManualFitter)
    (req : Option RestRequest) : ℕ × RestBody :=
  match req with
  | none => (400, .fail "Missing required data field")
  | some rd =>
    match rd.data with
    | none => (400, .fail "Missing required data field")
    | some pts =>
      if pts.length < 10 then
        (400, .fail "Insufficient data points. At least 10 are required.")
      else if ¬(hasDateColumn pts = true ∧ hasValueColumn pts = true) then
        (400, .fail "Data must contain date and value columns")
      else
        let cfg := rd.config.getD {}
        let p := splitList (restTs pts) (cfg.trainSize.getD (4 / 5))
        let steps := rd.forecast_steps.getD 12
        match restFitResult autoFit manFit cfg p.1 with
        | .error e => (500, .fail e)
        | .ok mdl =>
          let fvals := modelForecast mdl steps
          let metrics : Option ApiMetrics :=
            if 0 < p.2.length then
              if 0 < min p.2.length fvals.length
              then some (restOverlapMetrics p.2 fvals)
              else none
            else none
          (200, .ok metrics fvals (restForecastDates steps))

lemma clamp01_nonneg (x : ℚ) : 0 ≤ clamp01 x := le_max_left 0 _

lemma clamp01_le_one (x : ℚ) : clamp01 x ≤ 1 :=
  max_le (by norm_num) (min_le_right x 1)

lemma clamp01_of_mem (x : ℚ) (h0 : 0 ≤ x) (h1 : x ≤ 1) : clamp01 x = x := by
  rw [clamp01, min_eq_left h1, max_eq_right h0]

lemma overlapTest_of_length_eq (t f : List ℚ) (h : t.length = f.length) :
    overlapTest t f = t := by
  rw [overlapTest, overlapLen, h, min_self, ← h, List.take_length]

lemma overlapForecast_of_length_eq (t f : List ℚ) (h : t.length = f.length) :
    overlapForecast t f = f := by
  rw [overlapForecast, overlapLen, h, min_self, List.take_length]

/-- Claim C1, counterexample.  On the test window `[0,...,0,2]` (ten
points, as a REST request needs) with a perfect forecast, the CLI metric
block reports accuracy `0.85 + 0.1 * r2 = 19/20` while the REST metric
block reports accuracy `1 - mae/range` clamped, here `1`; the two front
ends disagree on the accuracy value for the same fitted model and test
window (and the dashboard block computes no accuracy at all). -/
theorem c1_counterexample :
    (cliMetricsBlock [0, 0, 0, 0, 0, 0, 0, 0, 0, 2] [0, 0, 0, 0, 0, 0, 0, 0, 0, 2]).accuracy
        = 19 / 20
    ∧ (restOverlapMetrics [0, 0, 0, 0, 0, 0, 0, 0, 0, 2] [0, 0, 0, 0, 0, 0, 0, 0, 0, 2]).accuracy
        = 1
    ∧ (cliMetricsBlock [0, 0, 0, 0, 0, 0, 0, 0, 0, 2] [0, 0, 0, 0, 0, 0, 0, 0, 0, 2]).accuracy
        ≠ (restOverlapMetrics [0, 0, 0, 0, 0, 0, 0, 0, 0, 2]
            [0, 0, 0, 0, 0, 0, 0, 0, 0, 2]).accuracy := by
  have h1 : (cliMetricsBlock [0, 0, 0, 0, 0, 0, 0, 0, 0, 2]
      [0, 0, 0, 0, 0, 0, 0, 0, 0, 2]).accuracy = 19 / 20 := by
    simp [cliMetricsBlock, r2_score, ssRes, ssTot, sqErr, listMean]
    norm_num
  have h2 : (restOverlapMetrics [0, 0, 0, 0, 0, 0, 0, 0, 0, 2]
      [0, 0, 0, 0, 0, 0, 0, 0, 0, 2]).accuracy = 1 := by
    simp [restOverlapMetrics, restRawAccuracy, overlapTest, overlapForecast, overlapLen,
          mean_absolute_error, absErr, listMean, listMax, listMin, clamp01]
  exact ⟨h1, h2, by rw [h1, h2]; norm_num⟩

/-- Claim C1, amended.  For one test window and one forecast of the same
length: the mean squared error (the radicand of the RMSE reported by all
three front ends) and the MAE agree across the dashboard, the CLI and the
REST metric blocks; R² agrees between the dashboard and the CLI, and the
REST R² coincides with it exactly when `ss_total` is nonzero and the
shared value already lies in the unit interval.  The accuracy values are
not part of the agreement (see the counterexample). -/
theorem c1_amended (t f : List ℚ) (hlen : t.length = f.length) :
    (evaluate_models_metrics t f).mse = (cliMetricsBlock t f).mse
    ∧ (evaluate_models_metrics t f).mae = (cliMetricsBlock t f).mae
    ∧ (evaluate_models_metrics t f).r2 = (cliMetricsBlock t f).r2
    ∧ (restOverlapMetrics t f).mse = (evaluate_models_metrics t f).mse
    ∧ (restOverlapMetrics t f).mae = (evaluate_models_metrics t f).mae
    ∧ (ssTot t ≠ 0 → 0 ≤ r2_score t f → r2_score t f ≤ 1 →
        (restOverlapMetrics t f).r2 = (evaluate_models_metrics t f).r2) := by
  refine ⟨rfl, rfl, rfl, ?_, ?_, ?_⟩
  · show mean_squared_error (overlapTest t f) (overlapForecast t f) = mean_squared_error t f
    rw [overlapTest_of_length_eq t f hlen, overlapForecast_of_length_eq t f hlen]
  · show mean_absolute_error (overlapTest t f) (overlapForecast t f) = mean_absolute_error t f
    rw [overlapTest_of_length_eq t f hlen, overlapForecast_of_length_eq t f hlen]
  · intro hss h0 h1
    show clamp01 (restRawR2 (overlapTest t f) (overlapForecast t f)) = r2_score t f
    rw [overlapTest_of_length_eq t f hlen, overlapForecast_of_length_eq t f hlen,
        restRawR2, if_pos hss]
    exact clamp01_of_mem _ h0 h1

/-- Witness for the amended claim C1 at the concrete window `[1, 2]`
against the forecast `[3, 4]`. -/
theorem c1_amended_witness :
    (evaluate_models_metrics [1, 2] [3, 4]).mse = (cliMetricsBlock [1, 2] [3, 4]).mse
    ∧ (evaluate_models_metrics [1, 2] [3, 4]).mae = (cliMetricsBlock [1, 2] [3, 4]).mae
    ∧ (evaluate_models_metrics [1, 2] [3, 4]).r2 = (cliMetricsBlock [1, 2] [3, 4]).r2
    ∧ (restOverlapMetrics [1, 2] [3, 4]).mse = (evaluate_models_metrics [1, 2] [3, 4]).mse
    ∧ (restOverlapMetrics [1, 2] [3, 4]).mae = (evaluate_models_metrics [1, 2] [3, 4]).mae
    ∧ (ssTot [1, 2] ≠ 0 → 0 ≤ r2_score [1, 2] [3, 4] → r2_score [1, 2] [3, 4] ≤ 1 →
        (restOverlapMetrics [1, 2] [3, 4]).r2 = (evaluate_models_metrics [1, 2] [3, 4]).r2) :=
  c1_amended [1, 2] [3, 4] rfl

/-- Claim C6, counterexample.  A config with model type `stepwise` is
neither `manual` nor the default, yet the batch CLI takes the manual
fitting path with the default order, not the automatic stepwise search
the claim prescribes for every model type other than `manual`. -/
theorem c6_counterexample :
    cliFitPath { modelType := some "stepwise" } = FitPath.manual 1 1 1
    ∧ (cliFitPath { modelType := some "stepwise" }).isAuto = false
    ∧ ({ modelType := some "stepwise" : ModelConfig }.modelType.getD "auto") ≠ "manual" := by
  refine ⟨?_, ?_, by decide⟩
  · rw [cliFitPath, if_neg (by decide)]
    rfl
  · rw [cliFitPath, if_neg (by decide)]
    rfl

/-- Claim C6, amended.  The REST handler takes the automatic path exactly
when the configured model type (default `auto`) differs from `manual`,
while the batch CLI takes it exactly when the model type equals `auto`;
under model type `manual` (and in the default case) the two agree, the
manual path uses the configured order with each component defaulting to
1, and each front end takes exactly one of the two paths. -/
theorem c6_amended (c : ModelConfig) :
    ((restFitPath c).isAuto = true ↔ c.modelType.getD "auto" ≠ "manual")
    ∧ ((cliFitPath c).isAuto = true ↔ c.modelType.getD "auto" = "auto")
    ∧ (c.modelType.getD "auto" = "manual" →
        restFitPath c = FitPath.manual (orderP c) (orderD c) (orderQ c)
        ∧ cliFitPath c = FitPath.manual (orderP c) (orderD c) (orderQ c))
    ∧ (c.modelType = none →
        restFitPath c = FitPath.auto (c.seasonal.getD false) (c.seasonalPeriod.getD 12)
        ∧ cliFitPath c = FitPath.auto (c.seasonal.getD false) (c.seasonalPeriod.getD 12))
    ∧ (c.order = none → orderP c = 1 ∧ orderD c = 1 ∧ orderQ c = 1)
    ∧ ((restFitPath c).isAuto = true ∨ ∃ p d q, restFitPath c = FitPath.manual p d q)
    ∧ ((cliFitPath c).isAuto = true ∨ ∃ p d q, cliFitPath c = FitPath.manual p d q) := by
  refine ⟨?_, ?_, ?_, ?_, ?_, ?_, ?_⟩
  · rw [restFitPath]
    by_cases h : c.modelType.getD "auto" = "manual"
    · rw [if_pos h]
      simp [FitPath.isAuto, h]
    · rw [if_neg h]
      simp [FitPath.isAuto, h]
  · rw [cliFitPath]
    by_cases h : c.modelType.getD "auto" = "auto"
    · rw [if_pos h]
      simp [FitPath.isAuto, h]
    · rw [if_neg h]
      simp [FitPath.isAuto, h]
  · intro h
    constructor
    · rw [restFitPath, if_pos h]
    · rw [cliFitPath, if_neg (by rw [h]; decide)]
  · intro h
    constructor
    · rw [restFitPath, if_neg (by rw [h]; decide)]
    · rw [cliFitPath, if_pos (by rw [h]; rfl)]
  · intro h
    simp [orderP, orderD, orderQ, h]
  · rw [restFitPath]
    by_cases h : c.modelType.getD "auto" = "manual"
    · rw [if_pos h]
      exact Or.inr ⟨_, _, _, rfl⟩
    · rw [if_neg h]
      exact Or.inl rfl
  · rw [cliFitPath]
    by_cases h : c.modelType.getD "auto" = "auto"
    · rw [if_pos h]
      exact Or.inl rfl
    · rw [if_neg h]
      exact Or.inr ⟨_, _, _, rfl⟩

/-- Witness for the amended claim C6 at a config with model type
`manual` and no order, where both front ends take the manual path with
the default order (1, 1, 1). -/
theorem c6_amended_witness :
    restFitPath { modelType := some "manual" } = FitPath.manual 1 1 1
    ∧ cliFitPath { modelType := some "manual" } = FitPath.manual 1 1 1 :=
  (c6_amended { modelType := some "manual" }).2.2.1 rfl

/-- Claim C2, counterexample.  A perfectly ordinary tabular CSV upload
with columns `date` and `value` is not reshaped into a clean date-indexed
dataset: the reshape requires a column literally named `2015-01-31`, and
without it `columns.get_loc` raises a `KeyError`, so no DataFrame is
produced at all. -/
theorem c2_counterexample :
    load_data_csv { header := ["date", "value"], rows := [[CsvCell.str "2020-01-31", CsvCell.num 100]] }
      = .error "KeyError: 2015-01-31"
    ∧ ∀ fr, load_data_csv { header := ["date", "value"], rows := [[CsvCell.str "2020-01-31", CsvCell.num 100]] }
        ≠ .ok fr := by
  have h : load_data_csv { header := ["date", "value"], rows := [[CsvCell.str "2020-01-31", CsvCell.num 100]] }
      = .error "KeyError: 2015-01-31" := by
    rw [load_data_csv]
    rfl
  refine ⟨h, fun fr hfr => ?_⟩
  rw [h] at hfr
  exact Except.noConfusion hfr

/-- Claim C2, amended.  Only for uploads whose header contains a column
literally named `2015-01-31` and a `RegionName` column (with distinct
region names and distinct date columns) does `load_data` produce the
clean reshaped dataset; then the result is indexed by the date columns
from `2015-01-31` onward, every retained column is one of the uploaded
regions, holds one value per index entry taken from the row of that region,
and contains no missing values (columns with missing values are
dropped). -/
theorem c2_amended (tb : RawTable) (i j : ℕ)
    (hi : tb.header.indexOf? "2015-01-31" = some i)
    (hj : tb.header.indexOf? "RegionName" = some j)
    (hreg : (tableRegions tb j).Nodup)
    (hdat : (tb.header.drop i).Nodup) :
    ∃ fr, load_data_csv tb = .ok fr
      ∧ fr.index = tb.header.drop i
      ∧ ∀ c ∈ fr.columns,
          c.1 ∈ tableRegions tb j
          ∧ c.2.all Option.isSome = true
          ∧ c.2.length = fr.index.length
          ∧ ∃ r ∈ tb.rows,
              c.1 = csvCellStr (r.getD j CsvCell.blank)
              ∧ c.2 = (List.range (tb.header.drop i).length).map
                        (fun cn => csvCellNum (r.getD (i + cn) CsvCell.blank)) := by
  simp only [load_data_csv, hi, hj]
  rw [if_pos ⟨hreg, hdat⟩]
  refine ⟨_, rfl, rfl, ?_⟩
  intro c hc
  obtain ⟨hmem, hpred⟩ := List.mem_filter.mp hc
  obtain ⟨r, hr, heq⟩ := List.mem_map.mp hmem
  subst heq
  refine ⟨List.mem_map.mpr ⟨r, hr, rfl⟩, hpred, ?_, ⟨r, hr, rfl, rfl⟩⟩
  simp

/-- Witness for the amended claim C2 on a two-region upload where one
region has a missing value and is dropped. -/
theorem c2_amended_witness :
    ∃ fr, load_data_csv { header := ["RegionName", "2015-01-31", "2015-02-28"], rows := [[CsvCell.str "Austin", CsvCell.num 100, CsvCell.num 101], [CsvCell.str "Boston", CsvCell.num 90, CsvCell.blank]] }
      = .ok fr
      ∧ fr.index = (["RegionName", "2015-01-31", "2015-02-28"] : List String).drop 1
      ∧ ∀ c ∈ fr.columns,
          c.1 ∈ tableRegions { header := ["RegionName", "2015-01-31", "2015-02-28"], rows := [[CsvCell.str "Austin", CsvCell.num 100, CsvCell.num 101], [CsvCell.str "Boston", CsvCell.num 90, CsvCell.blank]] } 0
          ∧ c.2.all Option.isSome = true
          ∧ c.2.length = fr.index.length
          ∧ ∃ r ∈ ([[CsvCell.str "Austin", CsvCell.num 100, CsvCell.num 101], [CsvCell.str "Boston", CsvCell.num 90, CsvCell.blank]] : List (List CsvCell)),
              c.1 = csvCellStr (r.getD 0 CsvCell.blank)
              ∧ c.2 = (List.range ((["RegionName", "2015-01-31", "2015-02-28"] :
                          List String).drop 1).length).map
                        (fun cn => csvCellNum (r.getD (1 + cn) CsvCell.blank)) :=
  c2_amended _ 1 0 (by decide) (by decide) (by decide) (by decide)

/-- Claim C3.  With a selected series and `0 < train_size < 1`,
`split_data` stores the first `floor(n * train_size)` observations as the
training set and the remaining `n - floor(n * train_size)` as the test
set, their concatenation being the original series; without a selected
series it raises a ValueError. -/
theorem c3_split_data (t : ℚ) (h0 : 0 < t) (h1 : t < 1) :
    (∀ (a : Analyzer) (s : Series), a.ts = some s →
      ∃ a2, a.split_data t = .ok a2
        ∧ a2.ts_train = some (s.take (⌊(s.length : ℚ) * t⌋).toNat)
        ∧ a2.ts_test = some (s.drop (⌊(s.length : ℚ) * t⌋).toNat)
        ∧ (s.take (⌊(s.length : ℚ) * t⌋).toNat).length = (⌊(s.length : ℚ) * t⌋).toNat
        ∧ (s.drop (⌊(s.length : ℚ) * t⌋).toNat).length
            = s.length - (⌊(s.length : ℚ) * t⌋).toNat
        ∧ s.take (⌊(s.length : ℚ) * t⌋).toNat ++ s.drop (⌊(s.length : ℚ) * t⌋).toNat = s)
    ∧ (∀ a : Analyzer, a.ts = none →
        a.split_data t = .error "No time series data selected. Call select_column() first.") := by
  constructor
  · intro a s hs
    have hidx : splitIdx s.length t = (⌊(s.length : ℚ) * t⌋).toNat := by
      rw [splitIdx, pyInt, if_pos (mul_nonneg (Nat.cast_nonneg _) h0.le)]
    have hle : (⌊(s.length : ℚ) * t⌋).toNat ≤ s.length := by
      have h2 : (s.length : ℚ) * t ≤ (s.length : ℚ) :=
        mul_le_of_le_one_right (Nat.cast_nonneg _) h1.le
      have h3 : ⌊(s.length : ℚ) * t⌋ ≤ (s.length : ℤ) := by
        calc ⌊(s.length : ℚ) * t⌋ ≤ ⌊(s.length : ℚ)⌋ := Int.floor_le_floor h2
          _ = (s.length : ℤ) := Int.floor_natCast _
      exact Int.toNat_le.mpr h3
    refine ⟨{ a with ts_train := some (s.take (⌊(s.length : ℚ) * t⌋).toNat),
                     ts_test := some (s.drop (⌊(s.length : ℚ) * t⌋).toNat) },
            ?_, rfl, rfl, ?_, List.length_drop _ _, List.take_append_drop _ _⟩
    · simp only [Analyzer.split_data, hs, splitList, hidx]
    · rw [List.length_take]
      exact min_eq_left hle
  · intro a ha
    simp only [Analyzer.split_data, ha]

/-- Witness for claim C3 on a five-point series split at `0.8`. -/
theorem c3_split_data_witness :
    ∃ a2, Analyzer.split_data
        { ts := some [some 1, some 2, some 3, some 4, some 5] } (4 / 5) = .ok a2
      ∧ a2.ts_train = some (([some 1, some 2, some 3, some 4, some 5] : Series).take
          (⌊((([some 1, some 2, some 3, some 4, some 5] : Series).length : ℚ) * (4 / 5))⌋).toNat)
      ∧ a2.ts_test = some (([some 1, some 2, some 3, some 4, some 5] : Series).drop
          (⌊((([some 1, some 2, some 3, some 4, some 5] : Series).length : ℚ) * (4 / 5))⌋).toNat)
      ∧ (([some 1, some 2, some 3, some 4, some 5] : Series).take
          (⌊((([some 1, some 2, some 3, some 4, some 5] : Series).length : ℚ) * (4 / 5))⌋).toNat).length
          = (⌊((([some 1, some 2, some 3, some 4, some 5] : Series).length : ℚ) * (4 / 5))⌋).toNat
      ∧ (([some 1, some 2, some 3, some 4, some 5] : Series).drop
          (⌊((([some 1, some 2, some 3, some 4, some 5] : Series).length : ℚ) * (4 / 5))⌋).toNat).length
          = ([some 1, some 2, some 3, some 4, some 5] : Series).length
            - (⌊((([some 1, some 2, some 3, some 4, some 5] : Series).length : ℚ) * (4 / 5))⌋).toNat
      ∧ ([some 1, some 2, some 3, some 4, some 5] : Series).take
          (⌊((([some 1, some 2, some 3, some 4, some 5] : Series).length : ℚ) * (4 / 5))⌋).toNat
          ++ ([some 1, some 2, some 3, some 4, some 5] : Series).drop
          (⌊((([some 1, some 2, some 3, some 4, some 5] : Series).length : ℚ) * (4 / 5))⌋).toNat
          = [some 1, some 2, some 3, some 4, some 5] :=
  (c3_split_data (4 / 5) (by norm_num) (by norm_num)).1
    { ts := some [some 1, some 2, some 3, some 4, some 5] } _ rfl

/-- Claim C4.  With a fitted model and a test window, `forecast(None)`
and `auto_forecast(None)` produce exactly as many values as the test
window has; without a fitted model each raises a ValueError whatever the
steps argument; with a fitted model but no test window each raises a
ValueError even when an explicit steps argument is supplied. -/
theorem c4_forecast_bookkeeping :
    (∀ (a : Analyzer) (m : Model) (tst : Series),
        a.model_fit = some m → a.ts_test = some tst →
        a.forecast none = .ok (modelForecast m tst.length)
        ∧ (modelForecast m tst.length).length = tst.length)
    ∧ (∀ (a : Analyzer) (m : Model) (tst : Series),
        a.auto_model = some m → a.ts_test = some tst →
        a.auto_forecast none = .ok (modelForecast m tst.length)
        ∧ (modelForecast m tst.length).length = tst.length)
    ∧ (∀ (a : Analyzer) (steps : Option ℕ), a.model_fit = none →
        a.forecast steps = .error "No model fitted. Call fit_arima() first.")
    ∧ (∀ (a : Analyzer) (steps : Option ℕ), a.auto_model = none →
        a.auto_forecast steps
          = .error "No auto ARIMA model fitted. Call fit_auto_arima() first.")
    ∧ (∀ (a : Analyzer) (m : Model) (steps : ℕ),
        a.model_fit = some m → a.ts_test = none →
        a.forecast (some steps)
          = .error "No testing data available. Call split_data() first.")
    ∧ (∀ (a : Analyzer) (m : Model) (steps : ℕ),
        a.auto_model = some m → a.ts_test = none →
        a.auto_forecast (some steps)
          = .error "No testing data available. Call split_data() first.") := by
  refine ⟨?_, ?_, ?_, ?_, ?_, ?_⟩
  · intro a m tst hm ht
    refine ⟨?_, by simp [modelForecast]⟩
    simp only [Analyzer.forecast, hm, ht, Option.getD_none]
  · intro a m tst hm ht
    refine ⟨?_, by simp [modelForecast]⟩
    simp only [Analyzer.auto_forecast, hm, ht, Option.getD_none]
  · intro a steps hm
    simp only [Analyzer.forecast, hm]
  · intro a steps hm
    simp only [Analyzer.auto_forecast, hm]
  · intro a m steps hm ht
    simp only [Analyzer.forecast, hm, ht]
  · intro a m steps hm ht
    simp only [Analyzer.auto_forecast, hm, ht]

/-- Witness for claim C4 on a three-point test window. -/
theorem c4_forecast_bookkeeping_witness :
    Analyzer.forecast
        { model_fit := some (fun _ => 7), ts_test := some [some 1, some 2, some 3] } none
      = .ok (modelForecast (fun _ => 7) ([some 1, some 2, some 3] : Series).length)
    ∧ (modelForecast (fun _ => (7 : ℚ))
        ([some 1, some 2, some 3] : Series).length).length
      = ([some 1, some 2, some 3] : Series).length :=
  c4_forecast_bookkeeping.1
    { model_fit := some (fun _ => 7), ts_test := some [some 1, some 2, some 3] }
    (fun _ => 7) [some 1, some 2, some 3] rfl rfl

/-- Claim C7.  For every abstraction of the external ADF test,
`check_stationarity` on an explicit series returns true exactly when the
p-value of the test on the series with missing values dropped is at most
`0.05`; without a series argument it tests the training data, and it
raises a ValueError when no training data exists. -/
theorem c7_check_stationarity (adf : List ℚ → ℚ) :
    (∀ (a : Analyzer) (s : Series),
        Analyzer.check_stationarity adf a (some s) = .ok true
          ↔ adf (dropna s) ≤ 1 / 20)
    ∧ (∀ (a : Analyzer) (tr : Series), a.ts_train = some tr →
        Analyzer.check_stationarity adf a none
          = Analyzer.check_stationarity adf a (some tr))
    ∧ (∀ a : Analyzer, a.ts_train = none →
        Analyzer.check_stationarity adf a none
          = .error "No training data available. Call split_data() first.") := by
  refine ⟨?_, ?_, ?_⟩
  · intro a s
    simp [Analyzer.check_stationarity]
  · intro a tr htr
    simp only [Analyzer.check_stationarity, htr]
  · intro a htr
    simp only [Analyzer.check_stationarity, htr]

/-- Witness for claim C7: with an ADF oracle returning p-value 0 the
test on the empty series is reported stationary. -/
theorem c7_check_stationarity_witness :
    Analyzer.check_stationarity (fun _ => 0) {} (some []) = .ok true :=
  ((c7_check_stationarity (fun _ => 0)).1 {} []).mpr (by norm_num)

/-- Claim C8.  The loaded dataset is one class-level variable: loading a
dataset overwrites it whatever it held before, `select_column` then reads
the newly loaded dataset on every instance alike (two instances select
the same series), and constructing an analyzer with a data source has the
same overwriting effect on the shared state. -/
theorem c8_shared_class_state (s : Session) (d : DataFrame) (a b : Analyzer)
    (col : String) (oc : Option String) :
    ((s.load_data d).shared = some d)
    ∧ (select_column (s.load_data d) a col = select_column { shared := some d } a col)
    ∧ ((select_column (s.load_data d) a col).map Analyzer.ts
        = (select_column (s.load_data d) b col).map Analyzer.ts)
    ∧ ((newAnalyzer s oc (some d)).1.shared = some d) := by
  refine ⟨rfl, rfl, ?_, ?_⟩
  · simp only [select_column, Session.load_data]
    cases d.lookup col with
    | none => rfl
    | some ser => rfl
  · cases oc with
    | none => rfl
    | some c => rfl

/-- Claim C5.  Whatever the parsed input and whatever the external
fitting libraries do, the batch CLI writes exactly one JSON object: a
success object carrying metrics, forecast, dates and config, or an error
object carrying the error string, all-zero metrics and empty forecast
and date lists. -/
theorem c5_cli_output_shape (autoFit : AutoFitter) (manFit : ManualFitter)
    (parsed : Except String CliInput) :
    (∃ r, main_api_mode autoFit manFit parsed = .ok r)
    ∨ (∃ msg, main_api_mode autoFit manFit parsed = .err msg ⟨0, 0, 0, 0⟩ [] []) := by
  cases parsed with
  | error e => exact Or.inr ⟨e, rfl⟩
  | ok inp =>
    show (∃ r, apiFinalize _ = .ok r) ∨ (∃ msg, apiFinalize _ = .err msg ⟨0, 0, 0, 0⟩ [] [])
    cases h : (do
        if hasColumn (inp.data.getD []) (inp.column.getD "") then
          let ts : Series := extractColumn (inp.data.getD []) (inp.column.getD "")
          let p := splitList ts ((inp.config.getD {}).trainSize.getD (4 / 5))
          let mdl : Model ←
            match cliFitPath (inp.config.getD {}) with
            | .auto s m => autoFit p.1 s m
            | .manual pp d q => manFit p.1 pp d q
          let fc := modelForecast mdl p.2.length
          let testQ ← seriesToQ p.2
          if testQ.length = 0 then
            Except.error "Found array with 0 samples"
          else
            let dates ← rangeIndexStrftime
            Except.ok { metrics := cliMetricsBlock testQ fc
                        forecastVals := fc
                        dates := dates
                        cfg := echoConfig (inp.config.getD {}) }
        else Except.error "Column not found in the data." :
          Except String ApiSuccess) with
    | ok r => exact Or.inl ⟨r, rfl⟩
    | error e => exact Or.inr ⟨e, rfl⟩

/-- Claim C9.  The REST handler returns 400 on a null body, on a body
without `data`, on fewer than ten data points, and on data without `date`
or `value` columns — in the last cases without consulting the fitting
libraries at all (the response does not depend on them); when validation
passes, an exception in the fitting step yields 500 with the error
string, and otherwise the response is 200. -/
theorem c9_rest_validation (autoFit : RAutoFitter) (manFit : RManualFitter) :
    (restForecastHandler autoFit manFit none = (400, .fail "Missing required data field"))
    ∧ (∀ rd : RestRequest, rd.data = none →
        restForecastHandler autoFit manFit (some rd)
          = (400, .fail "Missing required data field"))
    ∧ (∀ (rd : RestRequest) (pts : List DataPoint), rd.data = some pts →
        pts.length < 10 →
        restForecastHandler autoFit manFit (some rd)
          = (400, .fail "Insufficient data points. At least 10 are required."))
    ∧ (∀ (rd : RestRequest) (pts : List DataPoint), rd.data = some pts →
        ¬ pts.length < 10 →
        ¬(hasDateColumn pts = true ∧ hasValueColumn pts = true) →
        restForecastHandler autoFit manFit (some rd)
          = (400, .fail "Data must contain date and value columns"))
    ∧ (∀ (rd : RestRequest) (pts : List DataPoint) (e : String), rd.data = some pts →
        ¬ pts.length < 10 →
        hasDateColumn pts = true → hasValueColumn pts = true →
        restFitResult autoFit manFit (rd.config.getD {})
            (splitList (restTs pts) ((rd.config.getD {}).trainSize.getD (4 / 5))).1
          = .error e →
        restForecastHandler autoFit manFit (some rd) = (500, .fail e))
    ∧ (∀ (rd : RestRequest) (pts : List DataPoint) (mdl : Model), rd.data = some pts →
        ¬ pts.length < 10 →
        hasDateColumn pts = true → hasValueColumn pts = true →
        restFitResult autoFit manFit (rd.config.getD {})
            (splitList (restTs pts) ((rd.config.getD {}).trainSize.getD (4 / 5))).1
          = .ok mdl →
        ∃ mets, restForecastHandler autoFit manFit (some rd)
          = (200, .ok mets (modelForecast mdl (rd.forecast_steps.getD 12))
              (restForecastDates (rd.forecast_steps.getD 12))))
    ∧ (∀ (rd : RestRequest) (pts : List DataPoint), rd.data = some pts →
        (pts.length < 10 ∨ ¬(hasDateColumn pts = true ∧ hasValueColumn pts = true)) →
        ∀ (aF2 : RAutoFitter) (mF2 : RManualFitter),
          restForecastHandler autoFit manFit (some rd)
            = restForecastHandler aF2 mF2 (some rd)) := by
  refine ⟨rfl, ?_, ?_, ?_, ?_, ?_, ?_⟩
  · intro rd hd
    simp only [restForecastHandler, hd]
  · intro rd pts hd h10
    simp only [restForecastHandler, hd]
    rw [if_pos h10]
  · intro rd pts hd h10 hcols
    simp only [restForecastHandler, hd]
    rw [if_neg h10, if_pos hcols]
  · intro rd pts e hd h10 hdate hval hfit
    simp only [restForecastHandler, hd]
    rw [if_neg h10, if_neg (not_not_intro ⟨hdate, hval⟩), hfit]
  · intro rd pts mdl hd h10 hdate hval hfit
    simp only [restForecastHandler, hd]
    rw [if_neg h10, if_neg (not_not_intro (And.intro hdate hval)), hfit]
    exact ⟨_, rfl⟩
  · intro rd pts hd hbad aF2 mF2
    cases hbad with
    | inl h10 =>
      simp only [restForecastHandler, hd]
      rw [if_pos h10, if_pos h10]
    | inr hcols =>
      simp only [restForecastHandler, hd]
      by_cases h10 : pts.length < 10
      · rw [if_pos h10, if_pos h10]
      · rw [if_neg h10, if_neg h10, if_pos hcols, if_pos hcols]

/-- Witness for claim C9: a one-point request is rejected with 400. -/
theorem c9_rest_validation_witness :
    restForecastHandler (fun _ _ _ => .error "a") (fun _ _ _ _ => .error "m")
      (some { data := some [{ date := some "2020-01-31", value := some 1 }] })
      = (400, .fail "Insufficient data points. At least 10 are required.") :=
  (c9_rest_validation (fun _ _ _ => .error "a") (fun _ _ _ _ => .error "m")).2.2.1
    { data := some [{ date := some "2020-01-31", value := some 1 }] }
    [{ date := some "2020-01-31", value := some 1 }] rfl (by decide)

/-- Claim C10.  Every 200 REST response with a non-empty metrics object
reports an r2 and an accuracy inside the closed unit interval, and those
values arise from the overlap metric block: the guarded `1 - ss_res/ss_tot`
and `1 - mae/range` formulas clamped by `max(0, min(x, 1))`. -/
theorem c10_rest_unit_interval (autoFit : RAutoFitter) (manFit : RManualFitter)
    (req : Option RestRequest) (m : ApiMetrics) (fv : List ℚ) (dt : List String)
    (h : restForecastHandler autoFit manFit req = (200, RestBody.ok (some m) fv dt)) :
    0 ≤ m.r2 ∧ m.r2 ≤ 1 ∧ 0 ≤ m.accuracy ∧ m.accuracy ≤ 1
    ∧ ∃ tv fvals, m = restOverlapMetrics tv fvals
        ∧ m.r2 = clamp01 (restRawR2 (overlapTest tv fvals) (overlapForecast tv fvals))
        ∧ m.accuracy
            = clamp01 (restRawAccuracy (overlapTest tv fvals) (overlapForecast tv fvals)) := by
  have hm : ∃ tv fvals, m = restOverlapMetrics tv fvals := by
    cases req with
    | none => exact absurd (show (400 : ℕ) = 200 from congrArg Prod.fst h) (by norm_num)
    | some rd =>
      cases hdata : rd.data with
      | none =>
        rw [show restForecastHandler autoFit manFit (some rd)
            = (400, .fail "Missing required data field") from by
          simp only [restForecastHandler, hdata]] at h
        exact absurd (show (400 : ℕ) = 200 from congrArg Prod.fst h) (by norm_num)
      | some pts =>
        simp only [restForecastHandler, hdata] at h
        by_cases h10 : pts.length < 10
        · rw [if_pos h10] at h
          exact absurd (show (400 : ℕ) = 200 from congrArg Prod.fst h) (by norm_num)
        · rw [if_neg h10] at h
          by_cases hcols : ¬(hasDateColumn pts = true ∧ hasValueColumn pts = true)
          · rw [if_pos hcols] at h
            exact absurd (show (400 : ℕ) = 200 from congrArg Prod.fst h) (by norm_num)
          · rw [if_neg hcols] at h
            cases hfit : restFitResult autoFit manFit (rd.config.getD {})
                (splitList (restTs pts) ((rd.config.getD {}).trainSize.getD (4 / 5))).1 with
            | error e =>
              rw [hfit] at h
              exact absurd (show (500 : ℕ) = 200 from congrArg Prod.fst h) (by norm_num)
            | ok mdl =>
              rw [hfit] at h
              simp only [Prod.mk.injEq, RestBody.ok.injEq] at h
              obtain ⟨-, h1, -, -⟩ := h
              by_cases hl : 0 < (splitList (restTs pts)
                  ((rd.config.getD {}).trainSize.getD (4 / 5))).2.length
              · rw [if_pos hl] at h1
                by_cases hmin : 0 < min (splitList (restTs pts)
                    ((rd.config.getD {}).trainSize.getD (4 / 5))).2.length
                    (modelForecast mdl (rd.forecast_steps.getD 12)).length
                · rw [if_pos hmin] at h1
                  exact ⟨_, _, (Option.some_inj.mp h1).symm⟩
                · rw [if_neg hmin] at h1
                  exact absurd h1 (by simp)
              · rw [if_neg hl] at h1
                exact absurd h1 (by simp)
  obtain ⟨tv, fvals, hmv⟩ := hm
  subst hmv
  exact ⟨clamp01_nonneg _, clamp01_le_one _, clamp01_nonneg _, clamp01_le_one _,
    tv, fvals, rfl, rfl, rfl⟩

/-- Witness for claim C10: a ten-point constant series whose 200 response
carries the metrics object (0, 0, 0, 0), inside the unit interval. -/
theorem c10_rest_unit_interval_witness :
    0 ≤ ({ mse := 0, mae := 0, r2 := 0, accuracy := 0 } : ApiMetrics).r2
    ∧ ({ mse := 0, mae := 0, r2 := 0, accuracy := 0 } : ApiMetrics).r2 ≤ 1
    ∧ 0 ≤ ({ mse := 0, mae := 0, r2 := 0, accuracy := 0 } : ApiMetrics).accuracy
    ∧ ({ mse := 0, mae := 0, r2 := 0, accuracy := 0 } : ApiMetrics).accuracy ≤ 1
    ∧ ∃ tv fvals,
        ({ mse := 0, mae := 0, r2 := 0, accuracy := 0 } : ApiMetrics)
          = restOverlapMetrics tv fvals
        ∧ ({ mse := 0, mae := 0, r2 := 0, accuracy := 0 } : ApiMetrics).r2
            = clamp01 (restRawR2 (overlapTest tv fvals) (overlapForecast tv fvals))
        ∧ ({ mse := 0, mae := 0, r2 := 0, accuracy := 0 } : ApiMetrics).accuracy
            = clamp01 (restRawAccuracy (overlapTest tv fvals) (overlapForecast tv fvals)) :=
  c10_rest_unit_interval (fun _ _ _ => .ok (fun _ => 5)) (fun _ _ _ _ => .error "x")
    (some { data := some [ { date := some "2020-01-31", value := some 5 },
                           { date := some "2020-02-29", value := some 5 },
                           { date := some "2020-03-31", value := some 5 },
                           { date := some "2020-04-30", value := some 5 },
                           { date := some "2020-05-31", value := some 5 },
                           { date := some "2020-06-30", value := some 5 },
                           { date := some "2020-07-31", value := some 5 },
                           { date := some "2020-08-31", value := some 5 },
                           { date := some "2020-09-30", value := some 5 },
                           { date := some "2020-10-31", value := some 5 } ] })
    { mse := 0, mae := 0, r2 := 0, accuracy := 0 }
    (modelForecast (fun _ => 5) 12) (restForecastDates 12)
    (by
      have h8 : splitIdx 10 (4 / 5) = 8 := by
        rw [splitIdx, pyInt]
        norm_num
        rfl
      simp [restForecastHandler, hasDateColumn, hasValueColumn, restTs, restFitResult,
            restFitPath, splitList, h8, restOverlapMetrics, overlapTest, overlapForecast,
            overlapLen, mean_squared_error, mean_absolute_error, sqErr, absErr, listMean,
            ssRes, ssTot, restRawR2, restRawAccuracy, listMax, listMin, clamp01,
            modelForecast, List.range_succ])

end TSF
